import Mathlib

/-!
# Verification of the chrome-bridge command relay and CDP session controller

Shallow embedding of the azure-flame-toolkit chrome-bridge core:

* the background service worker (debugger attach/detach, event-buffer
  ingestion, `readConsole` / `readNetwork`, `cdpEvaluate` retry logic,
  the CDP page-operation commands);
* the content script DOM-fallback handlers;
* the offscreen WebSocket endpoint (`ws.onmessage`);
* the relay server (`server.js`: connection handler, `handleCommand`,
  the 30 000 ms request timeout).

JavaScript `Map` objects are embedded as association lists, JS `Set`
objects as lists without duplicates by construction, and asynchronous
callbacks as explicit step functions on the global state.  The timers
armed by `setTimeout` are modelled as events fired separately.
-/

namespace ChromeBridge

/-- JS `Map.get`: first value stored under the key, if any. -/
def mapGet {α : Type} : List (Nat × α) → Nat → Option α
  | [], _ => none
  | (k', v) :: rest, k => if k' = k then some v else mapGet rest k

/-- JS `Map.set`: replace the value under the key in place, or append a new
entry when the key is absent (insertion order is preserved). -/
def mapSet {α : Type} : List (Nat × α) → Nat → α → List (Nat × α)
  | [], k, v => [(k, v)]
  | (k', v') :: rest, k, v =>
      if k' = k then (k, v) :: rest else (k', v') :: mapSet rest k v

/-- JS `Map.delete`: remove every entry stored under the key. -/
def mapDelete {α : Type} (m : List (Nat × α)) (k : Nat) : List (Nat × α) :=
  m.filter (fun p => p.1 ≠ k)

/-- Whether the first character list is a leading segment of the
second. -/
def hasPrefixChars : List Char → List Char → Bool
  | [], _ => true
  | _ :: _, [] => false
  | p :: ps, c :: cs => p == c && hasPrefixChars ps cs

/-- Whether the pattern occurs as a contiguous run inside the list. -/
def hasSubstrChars (pat : List Char) : List Char → Bool
  | [] => hasPrefixChars pat []
  | c :: cs => hasPrefixChars pat (c :: cs) || hasSubstrChars pat cs

/-- JS `String.includes` (substring containment). -/
def jsIncludes (s pat : String) : Bool :=
  hasSubstrChars pat.toList s.toList

/-- JS `a || b` on strings: `b` when `a` is the empty string (falsy). -/
def jsOrString (a b : String) : String :=
  if a = "" then b else a

/-! ## Background service worker: CDP session state (part_002)

`attachedTabs` is a `Set` of tab ids, `consoleMessages` and
`networkRequests` are `Map`s from tab id to the per-tab buffers. -/

/-- One entry of a per-tab console buffer, as built by the
`chrome.debugger.onEvent` listener. -/
structure ConsoleMsg where
  ctype : String
  text : String
  timestamp : Nat
  deriving Repr, DecidableEq

/-- One entry of a per-tab network buffer, as built by the
`Network.responseReceived` branch of the event listener. -/
structure NetworkReq where
  url : String
  status : Nat
  mimeType : String
  requestId : String
  deriving Repr, DecidableEq

/-- Global mutable state of the background service worker:
`attachedTabs`, `consoleMessages`, `networkRequests`. -/
structure BridgeState where
  attachedTabs : List Nat
  consoleMessages : List (Nat × List ConsoleMsg)
  networkRequests : List (Nat × List NetworkReq)
  deriving Repr, DecidableEq

/-- The service worker state at load time: empty set, empty maps. -/
def initialBridgeState : BridgeState :=
  { attachedTabs := [], consoleMessages := [], networkRequests := [] }

/-- JS `Set.add` on the attached-tab set. -/
def setAdd (s : List Nat) (x : Nat) : List Nat :=
  if x ∈ s then s else s ++ [x]

/-- JS `Set.delete` on the attached-tab set. -/
def setDelete (s : List Nat) (x : Nat) : List Nat :=
  s.filter (fun y => y ≠ x)

/-- The console buffer the listener works on for a tab:
`consoleMessages.get(tabId) || []`. -/
def consoleBufAt (st : BridgeState) (tabId : Nat) : List ConsoleMsg :=
  (mapGet st.consoleMessages tabId).getD []

/-- The network buffer the listener works on for a tab:
`networkRequests.get(tabId) || []`. -/
def networkBufAt (st : BridgeState) (tabId : Nat) : List NetworkReq :=
  (mapGet st.networkRequests tabId).getD []

/-- A `chrome.debugger.onEvent` notification, carrying the parameter
fields the listener reads.  For `consoleAPICalled` the `argValues` list
holds `a.value ?? a.description ?? ''` for each argument; for
`exceptionThrown`, `text` is `exceptionDetails.text` and `description`
is `exceptionDetails.exception?.description || ''`. -/
inductive DebuggerEvent
  | consoleAPICalled (tabId : Nat) (ctype : String) (argValues : List String)
      (timestamp : Nat)
  | exceptionThrown (tabId : Nat) (text : String) (description : String)
      (timestamp : Nat)
  | responseReceived (tabId : Nat) (url : String) (status : Nat)
      (mimeType : String) (requestId : String)
  deriving Repr, DecidableEq

/-- The `chrome.debugger.onEvent` listener: appends the event to the
tab buffer; the `consoleAPICalled` branch truncates the buffer to the
most recent 500 entries (`msgs.splice(0, msgs.length - 500)`), the
`responseReceived` branch truncates to the most recent 200, and the
`exceptionThrown` branch appends without truncation. -/
def onDebuggerEvent (st : BridgeState) (ev : DebuggerEvent) : BridgeState :=
  match ev with
  | .consoleAPICalled tabId ctype argValues timestamp =>
      let msgs := consoleBufAt st tabId
      let msgs := msgs ++
        [{ ctype := ctype, text := String.intercalate " " argValues,
           timestamp := timestamp }]
      let msgs := if msgs.length > 500 then msgs.drop (msgs.length - 500) else msgs
      { st with consoleMessages := mapSet st.consoleMessages tabId msgs }
  | .exceptionThrown tabId text description timestamp =>
      let msgs := consoleBufAt st tabId
      let msgs := msgs ++
        [{ ctype := "error", text := text ++ ": " ++ description,
           timestamp := timestamp }]
      { st with consoleMessages := mapSet st.consoleMessages tabId msgs }
  | .responseReceived tabId url status mimeType requestId =>
      let reqs := networkBufAt st tabId
      let reqs := reqs ++
        [{ url := url, status := status, mimeType := mimeType,
           requestId := requestId }]
      let reqs := if reqs.length > 200 then reqs.drop (reqs.length - 200) else reqs
      { st with networkRequests := mapSet st.networkRequests tabId reqs }

/-- Ingest a whole sequence of debugger events, oldest first. -/
def applyEvents (st : BridgeState) (evts : List DebuggerEvent) : BridgeState :=
  evts.foldl onDebuggerEvent st

/-- The console entries a list of events pushes for one tab, in order
(both `consoleAPICalled` and `exceptionThrown` push console entries). -/
def consolePushes (evts : List DebuggerEvent) (tabId : Nat) : List ConsoleMsg :=
  evts.filterMap fun ev =>
    match ev with
    | .consoleAPICalled t ctype argValues timestamp =>
        if t = tabId then
          some { ctype := ctype, text := String.intercalate " " argValues,
                 timestamp := timestamp }
        else none
    | .exceptionThrown t text description timestamp =>
        if t = tabId then
          some { ctype := "error", text := text ++ ": " ++ description,
                 timestamp := timestamp }
        else none
    | .responseReceived _ _ _ _ _ => none

/-- The network entries a list of events pushes for one tab, in order. -/
def networkPushes (evts : List DebuggerEvent) (tabId : Nat) : List NetworkReq :=
  evts.filterMap fun ev =>
    match ev with
    | .responseReceived t url status mimeType requestId =>
        if t = tabId then
          some { url := url, status := status, mimeType := mimeType,
                 requestId := requestId }
        else none
    | _ => none

/-- True when the event sequence contains no `Runtime.exceptionThrown`
notification. -/
def noExceptionEvents (evts : List DebuggerEvent) : Bool :=
  evts.all fun ev =>
    match ev with
    | .exceptionThrown _ _ _ _ => false
    | _ => true

/-! ## Background service worker: attach / detach (part_002) -/

/-- Outcomes the browser reports to `ensureDebuggerAttached` for one
invocation: the result of `chrome.debugger.attach`, of
`Runtime.enable`, and of `Network.enable` (each may reject with a
message). -/
structure AttachEnv where
  attach : Except String Unit
  enableRuntime : Except String Unit
  enableNetwork : Except String Unit

/-- `ensureDebuggerAttached(tabId)`.  Already-recorded tabs return at
once.  Otherwise `chrome.debugger.attach` runs and on success the tab
is added to `attachedTabs` before the two `enable` calls; the `catch`
around the whole body treats any error whose message includes
`Already attached` as success (recording the tab) and wraps any other
message in `Debugger attach failed: `.  On full success the two
buffers are initialized only when absent. -/
def ensureDebuggerAttached (env : AttachEnv) (st : BridgeState) (tabId : Nat) :
    Except String Unit × BridgeState :=
  if tabId ∈ st.attachedTabs then (.ok (), st)
  else
    match env.attach with
    | .error m =>
        if jsIncludes m "Already attached" then
          (.ok (), { st with attachedTabs := setAdd st.attachedTabs tabId })
        else
          (.error ("Debugger attach failed: " ++ m), st)
    | .ok _ =>
        let st := { st with attachedTabs := setAdd st.attachedTabs tabId }
        match env.enableRuntime with
        | .error m =>
            if jsIncludes m "Already attached" then
              (.ok (), { st with attachedTabs := setAdd st.attachedTabs tabId })
            else
              (.error ("Debugger attach failed: " ++ m), st)
        | .ok _ =>
            match env.enableNetwork with
            | .error m =>
                if jsIncludes m "Already attached" then
                  (.ok (), { st with attachedTabs := setAdd st.attachedTabs tabId })
                else
                  (.error ("Debugger attach failed: " ++ m), st)
            | .ok _ =>
                let st :=
                  if (mapGet st.consoleMessages tabId).isNone then
                    { st with consoleMessages := mapSet st.consoleMessages tabId [] }
                  else st
                let st :=
                  if (mapGet st.networkRequests tabId).isNone then
                    { st with networkRequests := mapSet st.networkRequests tabId [] }
                  else st
                (.ok (), st)

/-- `detachDebugger(tabId)`: a no-op when the tab is not recorded as
attached; otherwise `chrome.debugger.detach` runs (its errors are
ignored) and the tab is removed from `attachedTabs` and both buffer
maps. -/
def detachDebugger (st : BridgeState) (tabId : Nat) : BridgeState :=
  if tabId ∈ st.attachedTabs then
    { attachedTabs := setDelete st.attachedTabs tabId,
      consoleMessages := mapDelete st.consoleMessages tabId,
      networkRequests := mapDelete st.networkRequests tabId }
  else st

/-! ## Background service worker: readConsole / readNetwork (part_002)

`getActiveTab` has already resolved the tab; the functions receive the
resolved tab id. -/

/-- JS `arr.slice(-limit)`: for a positive `limit` the most recent
`limit` elements; `slice(-0)` is `slice(0)`, the whole array. -/
def jsSliceLast {α : Type} (l : List α) (limit : Nat) : List α :=
  if limit = 0 then l else l.drop (l.length - limit)

/-- Result object of `readConsole`. -/
structure ReadConsoleResult where
  messages : List ConsoleMsg
  count : Nat
  deriving Repr, DecidableEq

/-- Result object of `readNetwork`. -/
structure ReadNetworkResult where
  requests : List NetworkReq
  count : Nat
  deriving Repr, DecidableEq

/-- `readConsole`: reads `consoleMessages.get(tab.id) || []`, returns
`msgs.slice(-limit)` with its length, and when `clear` is set stores an
empty buffer for the tab.  Callers default `clear` to `false` and
`limit` to `100`. -/
def readConsole (st : BridgeState) (tabId : Nat) (clear : Bool) (limit : Nat) :
    ReadConsoleResult × BridgeState :=
  let msgs := consoleBufAt st tabId
  let result := jsSliceLast msgs limit
  let st' :=
    if clear then { st with consoleMessages := mapSet st.consoleMessages tabId [] }
    else st
  ({ messages := result, count := result.length }, st')

/-- `readNetwork`: reads `networkRequests.get(tab.id) || []`, returns
`reqs.slice(-limit)` with its length, and when `clear` is set stores an
empty buffer for the tab.  Callers default `clear` to `false` and
`limit` to `50`. -/
def readNetwork (st : BridgeState) (tabId : Nat) (clear : Bool) (limit : Nat) :
    ReadNetworkResult × BridgeState :=
  let reqs := networkBufAt st tabId
  let result := jsSliceLast reqs limit
  let st' :=
    if clear then { st with networkRequests := mapSet st.networkRequests tabId [] }
    else st
  ({ requests := result, count := result.length }, st')

/-! ## Background service worker: cdpEvaluate (part_002)

`cdpEvaluate` resolves the tab, runs `ensureDebuggerAttached`, then
sends `Runtime.evaluate`.  When the protocol call rejects with a
message that includes `not attached`, it deletes the local attached
marker, re-attaches, and returns `cdpEvaluate(params)` — a recursive
retry.  We model the unbounded recursion by feeding the executor a
finite script of per-attempt browser behaviours; running off the end of
the script (`none`) means the recursion is still going after that many
evaluate attempts. -/

/-- What `Runtime.evaluate` resolves with: optionally present
`exceptionDetails` (its `exception?.description` and `text`) and the
value `result.result?.value`. -/
structure CdpEvalResult where
  exceptionDescription : Option String
  exceptionText : String
  hasException : Bool
  value : Option String
  deriving Repr, DecidableEq

/-- The browser behaviour for one evaluate attempt: the outcome of the
`Runtime.evaluate` protocol call (`.error` is a rejected `cdpSend`),
and the outcome of `ensureDebuggerAttached` should this attempt take
the re-attach path. -/
structure EvalAttempt where
  send : Except String CdpEvalResult
  reattach : Except String Unit

/-- What `cdpEvaluate` produces when it returns: either an
error-bearing result object (page exception) or a value result. -/
inductive CdpEvalReturn
  | errorResult (msg : String)
  | valueResult (v : Option String)
  deriving Repr, DecidableEq

/-- The body of `cdpEvaluate` after the initial attach, one recursive
call per script entry.  A resolved call with `exceptionDetails` returns
the error result built from `description || text || 'Evaluation
error'`; a resolved call without returns `result.result?.value ?? null`;
a rejection including `not attached` re-attaches and recurses (the
recursion aborts with the attach error when the re-attach fails); any
other rejection is thrown. -/
def cdpEvaluateLoop : List EvalAttempt → Option (Except String CdpEvalReturn)
  | [] => none
  | a :: rest =>
      match a.send with
      | .ok r =>
          if r.hasException then
            some (.ok (.errorResult
              (jsOrString (r.exceptionDescription.getD "")
                (jsOrString r.exceptionText "Evaluation error"))))
          else
            some (.ok (.valueResult r.value))
      | .error m =>
          if jsIncludes m "not attached" then
            match a.reattach with
            | .ok _ => cdpEvaluateLoop rest
            | .error am => some (.error am)
          else
            some (.error m)

/-- `cdpEvaluate` including the `ensureDebuggerAttached` call made
before the `try` block. -/
def cdpEvaluate (initialAttach : Except String Unit)
    (attempts : List EvalAttempt) : Option (Except String CdpEvalReturn) :=
  match initialAttach with
  | .error m => some (.error m)
  | .ok _ => cdpEvaluateLoop attempts

/-- An attempt whose evaluate call fails `not attached` and whose
re-attach succeeds: the executor silently starts another cycle. -/
def notAttachedAttempt : EvalAttempt :=
  { send := .error "Debugger is not attached to the tab", reattach := .ok () }

/-- An attempt whose evaluate call resolves with a plain value. -/
def valueAttempt (v : String) : EvalAttempt :=
  { send := .ok { exceptionDescription := none, exceptionText := "",
                  hasException := false, value := some v },
    reattach := .ok () }

/-- Holds when the attempt takes the silent retry path: the evaluate
call rejected with a message including `not attached` and the re-attach
succeeded. -/
def isSilentRetry (a : EvalAttempt) : Bool :=
  match a.send with
  | .error m =>
      jsIncludes m "not attached" &&
        (match a.reattach with | .ok _ => true | .error _ => false)
  | .ok _ => false

/-! ## Background service worker: CDP page operations (part_002)

The commands below run against an attached session; the varying part
is what the page-side evaluations find.  `cdpSend('Runtime.evaluate')`
resolves even when the evaluated page script throws — the thrown
exception only shows up as `exceptionDetails` inside the resolved
result. -/

/-- The page as seen by the CDP commands: where the locator expression
finds an element (and its centre point), and whether a focus/scroll
expression finds its element at all. -/
structure CdpPage where
  locateCenter : String → Option (Int × Int)
  elementExists : String → Bool

/-- Result object of `cdpClick`. -/
structure CdpClickResult where
  success : Bool
  clickedX : Int
  clickedY : Int
  deriving Repr, DecidableEq

/-- `cdpClick`: with a selector and no coordinates, evaluates the
locator expression; a `null` value throws `Element not found`.
Otherwise it dispatches `mouseMoved`, `mousePressed`, `mouseReleased`
at the resolved point and reports success. -/
def cdpClick (page : CdpPage) (selector : Option String)
    (x y : Option Int) : Except String CdpClickResult :=
  match selector, x, y with
  | some sel, some cx, some cy =>
      let _ := sel
      .ok { success := true, clickedX := cx, clickedY := cy }
  | some sel, _, _ =>
      match page.locateCenter sel with
      | none => .error ("Element not found: " ++ sel)
      | some (cx, cy) => .ok { success := true, clickedX := cx, clickedY := cy }
  | none, some cx, some cy => .ok { success := true, clickedX := cx, clickedY := cy }
  | none, _, _ => .ok { success := true, clickedX := 0, clickedY := 0 }

/-- Result object of `cdpType`. -/
structure CdpTypeResult where
  success : Bool
  typed : String
  deriving Repr, DecidableEq

/-- The CDP methods `cdpType` invokes, in order, so that the theorems
can state that text insertion happens. -/
def cdpTypeTrace (selector : Option String) (pressEnter : Bool) : List String :=
  (match selector with
   | some _ => ["Runtime.evaluate"]
   | none => []) ++
  ["Input.insertText"] ++
  (if pressEnter then ["Input.dispatchKeyEvent", "Input.dispatchKeyEvent"] else [])

/-- `cdpType`: when a selector is given, sends a focus-and-clear
`Runtime.evaluate` whose page script throws `Element not found` for a
missing element — but the resolved result (and with it the exception)
is discarded; the function then sends `Input.insertText` and the
optional Enter key events unconditionally and reports success. -/
def cdpType (page : CdpPage) (selector : Option String) (text : String)
    (clear pressEnter : Bool) : Except String CdpTypeResult × List String :=
  let _focusOutcome :=
    match selector with
    | some sel => some (page.elementExists sel)
    | none => none
  let _ := clear
  (.ok { success := true, typed := text }, cdpTypeTrace selector pressEnter)

/-- Result object of `cdpScroll`. -/
inductive CdpScrollResult
  | scrolledTo (selector : String)
  | scrolledBy (deltaX deltaY : Int)
  deriving Repr, DecidableEq

/-- `cdpScroll`: with a selector, evaluates a `scrollIntoView`
expression whose result (`!!el`, false for a missing element) is
discarded, and reports `scrolledTo` success unconditionally; without a
selector it dispatches a `mouseWheel` event. -/
def cdpScroll (page : CdpPage) (selector : Option String)
    (deltaX deltaY : Int) : Except String CdpScrollResult :=
  match selector with
  | some sel =>
      let _found := page.elementExists sel
      .ok (.scrolledTo sel)
  | none => .ok (.scrolledBy deltaX deltaY)

/-- Result object of `cdpUploadFile`. -/
structure CdpUploadResult where
  success : Bool
  uploaded : List String
  deriving Repr, DecidableEq

/-- `DOM.querySelector` as seen by `cdpUploadFile`: the returned
`nodeId`, with `0` (falsy) meaning no match. -/
structure CdpDom where
  queryNodeId : String → Nat

/-- `cdpUploadFile`: resolves the file input via `DOM.querySelector`
(selector defaulting to `input[type="file"]`); a falsy `nodeId` throws
`File input not found` (the message interpolates the original,
possibly undefined, selector); otherwise `DOM.setFileInputFiles` runs
and the function reports success. -/
def cdpUploadFile (dom : CdpDom) (selector : Option String)
    (filePaths : List String) : Except String CdpUploadResult :=
  let query := match selector with | some s => s | none => "input[type=\"file\"]"
  let nodeId := dom.queryNodeId query
  if nodeId = 0 then
    .error ("File input not found: " ++
      (match selector with | some s => s | none => "undefined"))
  else
    .ok { success := true, uploaded := filePaths }

/-! ## Content script DOM-fallback handlers (content.js)

`findElement` resolves a selector (XPath or CSS) to an element or
`null`; the handlers below are dispatched by `handleAction`, and the
`onMessage` listener converts a thrown error into an `error`-bearing
response object. -/

/-- The element fields the content-script handlers read and write. -/
structure DomElement where
  isContentEditable : Bool
  hasValueProp : Bool
  value : String
  innerHTML : String
  deriving Repr, DecidableEq

/-- The page DOM as seen by the content script. -/
structure Dom where
  find : String → Option DomElement
  elementFromPoint : Int → Int → Option DomElement

/-- Result object of the content-script `click` handler. -/
inductive ClickResult
  | clickedCoordinate
  | clickedSelector (selector : String)
  deriving Repr, DecidableEq

/-- `clickElement`: with both coordinates, clicks the element at the
point or throws `No element at`; otherwise resolves the selector and
throws `Element not found` when nothing matches. -/
def clickElement (dom : Dom) (selector : String) (x y : Option Int) :
    Except String ClickResult :=
  match x, y with
  | some px, some py =>
      match dom.elementFromPoint px py with
      | some _ => .ok .clickedCoordinate
      | none =>
          .error ("No element at (" ++ toString px ++ ", " ++ toString py ++ ")")
  | _, _ =>
      match dom.find selector with
      | none => .error ("Element not found: " ++ selector)
      | some _ => .ok (.clickedSelector selector)

/-- Result object of the content-script `type` handler. -/
structure TypeResult where
  success : Bool
  typed : String
  contentEditable : Bool
  deriving Repr, DecidableEq

/-- `typeText`: resolves the selector (throwing `Element not found`
for no match), then either edits `innerHTML` (contenteditable branch)
or `value`, dispatching the input/change events, and reports what was
typed. -/
def typeText (dom : Dom) (selector text : String)
    (clear pressEnter append : Bool) : Except String TypeResult :=
  match dom.find selector with
  | none => .error ("Element not found: " ++ selector)
  | some el =>
      if el.isContentEditable then
        let _html :=
          if append then (if clear then "" else el.innerHTML) ++ text
          else if !clear then el.innerHTML ++ text
          else text
        .ok { success := true, typed := text, contentEditable := true }
      else
        let _value := (if clear then "" else el.value) ++ text
        let _ := pressEnter
        .ok { success := true, typed := text, contentEditable := false }

/-- Result object of the content-script `scroll` handler. -/
inductive ScrollResult
  | scrolledTo (selector : String)
  | scrolledBy (x y : Int)
  deriving Repr, DecidableEq

/-- `scrollPage`: with a selector, resolves it (throwing `Element not
found` for no match) and scrolls it into view; otherwise scrolls the
window by the offsets. -/
def scrollPage (dom : Dom) (selector : Option String) (x y : Int) :
    Except String ScrollResult :=
  match selector with
  | some sel =>
      match dom.find sel with
      | none => .error ("Element not found: " ++ sel)
      | some _ => .ok (.scrolledTo sel)
  | none => .ok (.scrolledBy x y)

/-- Result object of the content-script `uploadFile` handler; the
base64 payload is embedded as its decoded byte list, whose length the
handler reports as `size`. -/
structure UploadResult where
  success : Bool
  uploaded : String
  size : Nat
  deriving Repr, DecidableEq

/-- `uploadFile`: resolves the target input (selector defaulting to
`input[type="file"]`), throwing `File input not found` when nothing
matches; otherwise builds the `File` from the decoded bytes, assigns
it, fires `change`, and reports the name and size. -/
def uploadFile (dom : Dom) (selector : Option String)
    (dataBytes : List Nat) (filename : String) : Except String UploadResult :=
  let fileInput :=
    match selector with
    | some s => dom.find s
    | none => dom.find "input[type=\"file\"]"
  match fileInput with
  | none =>
      .error ("File input not found: " ++
        (match selector with | some s => s | none => "input[type=\"file\"]"))
  | some _ => .ok { success := true, uploaded := filename, size := dataBytes.length }

/-- The `chrome.runtime.onMessage` listener of the content script:
a resolved handler result is passed to `sendResponse` as is, a thrown
error is converted to an `error`-bearing response object. -/
def contentResponse {α : Type} (r : Except String α) : Option α × Option String :=
  match r with
  | .ok v => (some v, none)
  | .error m => (none, some m)

/-! ## Offscreen endpoint: ws.onmessage (offscreen.js, part_003)

On each WebSocket frame the endpoint parses the JSON, forwards it as a
command to the service worker via `chrome.runtime.sendMessage`, and
sends back a frame `id: data.id, result`.  The surrounding
`try`/`catch` converts any exception — parse failure or a rejected
`sendMessage` — into a single frame `id: null, error`. -/

/-- A parsed command frame as the offscreen endpoint sees it. -/
structure OffFrame where
  id : Option Nat
  command : String
  deriving Repr, DecidableEq

/-- What delegating to the service worker does: resolve with a result
value (executor errors are themselves resolved result objects, built
by the background listener `catch`), or reject with an exception. -/
inductive Delegation
  | resolved (result : Nat)
  | rejected (message : String)
  deriving Repr, DecidableEq

/-- The response frame the endpoint writes back to the socket. -/
structure OffResponse where
  id : Option Nat
  result : Option Nat
  error : Option String
  deriving Repr, DecidableEq

/-- `ws.onmessage`: the single response frame sent for one incoming
frame, as a function of the parse outcome and the delegation
outcome. -/
def offscreenOnMessage (input : Except String OffFrame)
    (delegate : OffFrame → Delegation) : OffResponse :=
  match input with
  | .error m => { id := none, result := none, error := some m }
  | .ok data =>
      match delegate data with
      | .resolved r => { id := data.id, result := some r, error := none }
      | .rejected m => { id := none, result := none, error := some m }

/-! ## Relay server (server.js, embedded in README)

State: `chromeExtension` (the registered in-browser endpoint
connection), `pendingRequests` (a `Map` from relay request id to the
pending entry), and the `requestId` counter.  A pending entry models
what the `handleCommand` closures capture: the originating controller
connection and the original `message.id` field.  The 30 000 ms
`setTimeout` is modelled by emitting a timer-arm record; its later
firing is the separate step `relayTimerFire`. -/

/-- A parsed frame on a relay connection, covering the fields the
server reads: `type`, `id`, `command`, `result`, `error`. -/
structure ServerMsg where
  mtype : Option String
  id : Option Nat
  command : Option String
  result : Option Nat
  error : Option String
  deriving Repr, DecidableEq

/-- What the `handleCommand` closures capture for a pending request:
the originating controller connection (`clientWs`) and the
controller-supplied `message.id`. -/
structure PendingEntry where
  conn : Nat
  clientId : Option Nat
  deriving Repr, DecidableEq

/-- Relay server state. -/
structure ServerState where
  chromeExtension : Option Nat
  pendingRequests : List (Nat × PendingEntry)
  requestId : Nat
  deriving Repr, DecidableEq

/-- A timer armed by `handleCommand`: the relay request id it guards
and the delay in milliseconds. -/
structure TimerArm where
  forId : Nat
  delayMs : Nat
  deriving Repr, DecidableEq

/-- Frames written to connections: destination connection paired with
the frame. -/
abbrev ServerOut := Nat × ServerMsg

/-- JS truthiness of `message.id` (absent, `null` and `0` are falsy). -/
def msgIdTruthy : Option Nat → Bool
  | none => false
  | some n => n != 0

/-- JS truthiness of `message.command` (absent and `""` are falsy). -/
def msgCommandTruthy : Option String → Bool
  | none => false
  | some s => s != ""

/-- The error frame sent when no extension endpoint is registered. -/
def notConnectedFrame (clientId : Option Nat) : ServerMsg :=
  { mtype := none, id := clientId, command := none, result := none,
    error := some "Chrome 拡張機能が接続されていません" }

/-- The error frame sent when the 30 000 ms timer rejects the pending
promise and the `catch` in `handleCommand` reports it. -/
def timeoutFrame (clientId : Option Nat) : ServerMsg :=
  { mtype := none, id := clientId, command := none, result := none,
    error := some "Request timeout" }

/-- `handleCommand(clientWs, message)`: with no registered extension,
immediately sends the not-connected error to the controller and
changes nothing; otherwise assigns `++requestId`, stores the pending
entry, forwards the message with the new `id` spliced in to the
extension, and arms the 30 000 ms timer. -/
def handleCommand (st : ServerState) (conn : Nat) (msg : ServerMsg) :
    ServerState × List ServerOut × List TimerArm :=
  match st.chromeExtension with
  | none => (st, [(conn, notConnectedFrame msg.id)], [])
  | some extConn =>
      let newId := st.requestId + 1
      ({ chromeExtension := st.chromeExtension,
         pendingRequests :=
           mapSet st.pendingRequests newId { conn := conn, clientId := msg.id },
         requestId := newId },
       [(extConn, { msg with id := some newId })],
       [{ forId := newId, delayMs := 30000 }])

/-- The tail of the connection message handler: the `message.command`
branch. -/
def commandBranch (st : ServerState) (conn : Nat) (msg : ServerMsg) :
    ServerState × List ServerOut × List TimerArm :=
  if msgCommandTruthy msg.command then handleCommand st conn msg
  else (st, [], [])

/-- The `ws.on('message')` handler of the relay: the `connected`
handshake registers the sender as the extension endpoint; a frame with
a truthy `id` matching a pending request resolves it (the stored
controller connection receives the frame, the entry is deleted); a
frame with a truthy `command` goes to `handleCommand`. -/
def onSocketMessage (st : ServerState) (conn : Nat) (msg : ServerMsg) :
    ServerState × List ServerOut × List TimerArm :=
  if msg.mtype = some "connected" then
    ({ st with chromeExtension := some conn }, [], [])
  else
    match msg.id with
    | some i =>
        if i = 0 then commandBranch st conn msg
        else
          match mapGet st.pendingRequests i with
          | some entry =>
              ({ st with pendingRequests := mapDelete st.pendingRequests i },
               [(entry.conn, msg)], [])
          | none => commandBranch st conn msg
    | none => commandBranch st conn msg

/-- The `setTimeout` callback armed by `handleCommand`, together with
the `catch` that reports the rejection: when the request is still
pending it is deleted and its controller receives the timeout error;
otherwise nothing happens. -/
def relayTimerFire (st : ServerState) (i : Nat) :
    ServerState × List ServerOut × List TimerArm :=
  match mapGet st.pendingRequests i with
  | some entry =>
      ({ st with pendingRequests := mapDelete st.pendingRequests i },
       [(entry.conn, timeoutFrame entry.clientId)], [])
  | none => (st, [], [])

/-- The response frame the extension endpoint sends for relay id `i`
with payload `r`. -/
def responseMsg (i : Nat) (r : Nat) : ServerMsg :=
  { mtype := none, id := some i, command := none, result := some r, error := none }

/-- Feed a list of frames from one connection through the message
handler, collecting the frames the relay writes out. -/
def runMessages (st : ServerState) (conn : Nat) :
    List ServerMsg → ServerState × List ServerOut
  | [] => (st, [])
  | m :: ms =>
      let step := onSocketMessage st conn m
      let rest := runMessages step.1 conn ms
      (rest.1, step.2.1 ++ rest.2)

/-- The controller connection a pending relay id belongs to. -/
def pendingConnOf (st : ServerState) (i : Nat) : Nat :=
  match mapGet st.pendingRequests i with
  | some entry => entry.conn
  | none => 0

/-- The network entry a `responseReceived` notification appends. -/
def netEntry (url : String) (status : Nat) (mimeType requestId : String) :
    NetworkReq :=
  { url := url, status := status, mimeType := mimeType, requestId := requestId }

/-- The console entry a `consoleAPICalled` notification appends. -/
def conEntry (ctype : String) (argValues : List String) (timestamp : Nat) :
    ConsoleMsg :=
  { ctype := ctype, text := String.intercalate " " argValues,
    timestamp := timestamp }

/-- The console entry an `exceptionThrown` notification appends. -/
def exnEntry (text description : String) (timestamp : Nat) : ConsoleMsg :=
  { ctype := "error", text := text ++ ": " ++ description,
    timestamp := timestamp }


/-- The network buffers of every tab respect the 200-entry bound. -/
def networkBounded (st : BridgeState) : Prop :=
  ∀ t, (networkBufAt st t).length ≤ 200

/-- The console buffers of every tab respect the 500-entry bound. -/
def consoleBounded (st : BridgeState) : Prop :=
  ∀ t, (consoleBufAt st t).length ≤ 500


/-! ## Witness fixtures -/

/-- Two well-formed ingestion events used to witness the buffer
theorems. -/
def witnessEvents : List DebuggerEvent :=
  [.consoleAPICalled 1 "log" ["hello"] 10,
   .responseReceived 1 "https://example.com" 200 "text/html" "r1"]

/-- A 200-entry console buffer, distinct timestamps `0..199`. -/
def fullConsoleBuf : List ConsoleMsg :=
  (List.range 200).map fun i => conEntry "log" [] i

/-- A state whose tab-7 session retains 200 console entries. -/
def fullConsoleState : BridgeState :=
  { attachedTabs := [7], consoleMessages := [(7, fullConsoleBuf)],
    networkRequests := [(7, [])] }

/-- The scenario state: 600 console events ingested for tab 7. -/
def scenario600 : BridgeState :=
  applyEvents initialBridgeState
    ((List.range 600).map fun i => .consoleAPICalled 7 "log" [] i)

/-- An attach environment whose native attach reports the target as
already attached. -/
def alreadyAttachedEnv : AttachEnv :=
  { attach := .error "Already attached to the target",
    enableRuntime := .ok (), enableNetwork := .ok () }

/-- A page on which no selector resolves to an element. -/
def emptyPage : CdpPage :=
  { locateCenter := fun _ => none, elementExists := fun _ => false }

/-- A DOM query interface on which no selector matches (`nodeId` 0). -/
def emptyCdpDom : CdpDom :=
  { queryNodeId := fun _ => 0 }

/-- A content-script DOM on which no selector or point resolves. -/
def emptyDom : Dom :=
  { find := fun _ => none, elementFromPoint := fun _ _ => none }

/-- A command frame with relay id 1, as received by the offscreen
endpoint. -/
def offFrame1 : OffFrame :=
  { id := some 1, command := "navigate" }

/-- A relay state with one registered endpoint (connection 9) and one
pending request (id 1 from controller connection 2). -/
def relayStateOnePending : ServerState :=
  { chromeExtension := some 9,
    pendingRequests := [(1, { conn := 2, clientId := none })],
    requestId := 1 }

/-- A relay state with three pending requests from three controllers. -/
def relayStateThreePending : ServerState :=
  { chromeExtension := some 9,
    pendingRequests :=
      [(1, { conn := 11, clientId := none }),
       (2, { conn := 12, clientId := none }),
       (3, { conn := 13, clientId := none })],
    requestId := 3 }

/-- A relay state with no registered extension endpoint. -/
def relayStateNoExtension : ServerState :=
  { chromeExtension := none, pendingRequests := [], requestId := 0 }

/-- A controller `navigate` command frame as `client.js` sends it (no
`id` field). -/
def navigateMsg : ServerMsg :=
  { mtype := none, id := none, command := some "navigate", result := none,
    error := none }

/-! ## Helper lemmas: maps and right-takes -/

lemma mapGet_mapSet_self {α : Type} (m : List (Nat × α)) (k : Nat) (v : α) :
    mapGet (mapSet m k v) k = some v := by
  induction m with
  | nil => simp [mapGet, mapSet]
  | cons p rest ih =>
      by_cases h : p.1 = k
      · simp [mapGet, mapSet, h]
      · simp only [mapSet]
        rw [show (p.1, p.2) = p from rfl]
        simp [mapGet, h, ih]

lemma mapGet_mapSet_ne {α : Type} (m : List (Nat × α)) (k k' : Nat) (v : α)
    (h : k' ≠ k) : mapGet (mapSet m k v) k' = mapGet m k' := by
  have hk : k ≠ k' := Ne.symm h
  induction m with
  | nil => simp [mapGet, mapSet, hk]
  | cons p rest ih =>
      by_cases hp : p.1 = k
      · simp [mapGet, mapSet, hp, hk]
      · by_cases hp' : p.1 = k' <;> simp [mapGet, mapSet, hp, hp', ih, h]

lemma mapGet_mapDelete_self {α : Type} (m : List (Nat × α)) (k : Nat) :
    mapGet (mapDelete m k) k = none := by
  induction m with
  | nil => simp [mapGet, mapDelete]
  | cons p rest ih =>
      by_cases hp : p.1 = k
      · simpa [mapDelete, List.filter, hp] using ih
      · simpa [mapDelete, List.filter, hp, mapGet] using ih

lemma mapGet_mapDelete_ne {α : Type} (m : List (Nat × α)) (k k' : Nat)
    (h : k' ≠ k) : mapGet (mapDelete m k) k' = mapGet m k' := by
  have hk : k ≠ k' := Ne.symm h
  induction m with
  | nil => simp [mapGet, mapDelete]
  | cons p rest ih =>
      simp only [mapDelete, ne_eq, decide_not] at ih ⊢
      by_cases hp : p.1 = k
      · have hpk : p.1 ≠ k' := by rw [hp]; exact Ne.symm h
        simp [mapGet, List.filter_cons, hp, hpk, ih, h, hk]
      · by_cases hp' : p.1 = k' <;>
          simp [mapGet, List.filter_cons, hp, hp', ih, h, hk]

lemma length_rtake {α : Type} (l : List α) (n : Nat) :
    (List.rtake l n).length = min n l.length := by
  simp only [List.rtake, List.length_drop]
  omega

lemma rtake_of_length_le {α : Type} (l : List α) (n : Nat)
    (h : l.length ≤ n) : List.rtake l n = l := by
  simp only [List.rtake]
  rw [Nat.sub_eq_zero_of_le h, List.drop_zero]

/-- Splicing the front down to the cap is exactly a right-take. -/
lemma capSplice_eq_rtake {α : Type} (l : List α) (n : Nat) :
    (if l.length > n then l.drop (l.length - n) else l) = List.rtake l n := by
  split
  · rfl
  · next h => exact (rtake_of_length_le l n (by omega)).symm

/-- Right-taking is idempotent across later appends: truncating before
appending more and then truncating again agrees with truncating once at
the end. -/
lemma rtake_append_rtake {α : Type} (l m : List α) (n : Nat) :
    List.rtake (List.rtake l n ++ m) n = List.rtake (l ++ m) n := by
  rw [List.rtake_eq_reverse_take_reverse, List.rtake_eq_reverse_take_reverse,
    List.rtake_eq_reverse_take_reverse]
  rw [List.reverse_append, List.reverse_reverse, List.reverse_append]
  congr 1
  rw [List.take_append_eq_append_take, List.take_append_eq_append_take,
    List.take_take]
  congr 1
  congr 1
  omega

lemma readConsole_messages_eq (st : BridgeState) (tabId : Nat) (clear : Bool)
    (limit : Nat) : (readConsole st tabId clear limit).1.messages =
      jsSliceLast (consoleBufAt st tabId) limit := rfl

lemma readConsole_count_eq (st : BridgeState) (tabId : Nat) (clear : Bool)
    (limit : Nat) : (readConsole st tabId clear limit).1.count =
      (jsSliceLast (consoleBufAt st tabId) limit).length := rfl

lemma readConsole_state_noclear (st : BridgeState) (tabId : Nat) (limit : Nat) :
    (readConsole st tabId false limit).2 = st := rfl

lemma readConsole_state_clear (st : BridgeState) (tabId : Nat) (limit : Nat) :
    (readConsole st tabId true limit).2 =
      { st with consoleMessages := mapSet st.consoleMessages tabId [] } := rfl

lemma readNetwork_requests_eq (st : BridgeState) (tabId : Nat) (clear : Bool)
    (limit : Nat) : (readNetwork st tabId clear limit).1.requests =
      jsSliceLast (networkBufAt st tabId) limit := rfl

lemma readNetwork_count_eq (st : BridgeState) (tabId : Nat) (clear : Bool)
    (limit : Nat) : (readNetwork st tabId clear limit).1.count =
      (jsSliceLast (networkBufAt st tabId) limit).length := rfl

lemma readNetwork_state_noclear (st : BridgeState) (tabId : Nat) (limit : Nat) :
    (readNetwork st tabId false limit).2 = st := rfl

lemma readNetwork_state_clear (st : BridgeState) (tabId : Nat) (limit : Nat) :
    (readNetwork st tabId true limit).2 =
      { st with networkRequests := mapSet st.networkRequests tabId [] } := rfl

/-! ## Helper lemmas: buffer ingestion invariants -/

lemma networkBufAt_responseReceived_self (st : BridgeState) (tab : Nat)
    (url : String) (status : Nat) (mimeType requestId : String) :
    networkBufAt (onDebuggerEvent st
        (.responseReceived tab url status mimeType requestId)) tab =
      List.rtake (networkBufAt st tab ++ [netEntry url status mimeType requestId])
        200 := by
  simp only [onDebuggerEvent, networkBufAt, mapGet_mapSet_self, Option.getD_some,
    netEntry]
  exact capSplice_eq_rtake _ 200

lemma networkBufAt_responseReceived_ne (st : BridgeState) (tab t : Nat)
    (url : String) (status : Nat) (mimeType requestId : String) (h : t ≠ tab) :
    networkBufAt (onDebuggerEvent st
        (.responseReceived tab url status mimeType requestId)) t =
      networkBufAt st t := by
  simp only [onDebuggerEvent, networkBufAt]
  rw [mapGet_mapSet_ne _ _ _ _ h]

lemma networkBufAt_consoleAPICalled (st : BridgeState) (tab t : Nat)
    (ctype : String) (argValues : List String) (timestamp : Nat) :
    networkBufAt (onDebuggerEvent st
        (.consoleAPICalled tab ctype argValues timestamp)) t =
      networkBufAt st t := rfl

lemma networkBufAt_exceptionThrown (st : BridgeState) (tab t : Nat)
    (text description : String) (timestamp : Nat) :
    networkBufAt (onDebuggerEvent st
        (.exceptionThrown tab text description timestamp)) t =
      networkBufAt st t := rfl

lemma consoleBufAt_consoleAPICalled_self (st : BridgeState) (tab : Nat)
    (ctype : String) (argValues : List String) (timestamp : Nat) :
    consoleBufAt (onDebuggerEvent st
        (.consoleAPICalled tab ctype argValues timestamp)) tab =
      List.rtake (consoleBufAt st tab ++ [conEntry ctype argValues timestamp])
        500 := by
  simp only [onDebuggerEvent, consoleBufAt, mapGet_mapSet_self, Option.getD_some,
    conEntry]
  exact capSplice_eq_rtake _ 500

lemma consoleBufAt_consoleAPICalled_ne (st : BridgeState) (tab t : Nat)
    (ctype : String) (argValues : List String) (timestamp : Nat) (h : t ≠ tab) :
    consoleBufAt (onDebuggerEvent st
        (.consoleAPICalled tab ctype argValues timestamp)) t =
      consoleBufAt st t := by
  simp only [onDebuggerEvent, consoleBufAt]
  rw [mapGet_mapSet_ne _ _ _ _ h]

lemma consoleBufAt_exceptionThrown_self (st : BridgeState) (tab : Nat)
    (text description : String) (timestamp : Nat) :
    consoleBufAt (onDebuggerEvent st
        (.exceptionThrown tab text description timestamp)) tab =
      consoleBufAt st tab ++ [exnEntry text description timestamp] := by
  simp only [onDebuggerEvent, consoleBufAt, mapGet_mapSet_self, Option.getD_some,
    exnEntry]

lemma consoleBufAt_responseReceived (st : BridgeState) (tab t : Nat)
    (url : String) (status : Nat) (mimeType requestId : String) :
    consoleBufAt (onDebuggerEvent st
        (.responseReceived tab url status mimeType requestId)) t =
      consoleBufAt st t := rfl

/-- The network buffer after ingesting any event sequence is exactly
the right-take of the old buffer extended by all entries pushed for the
tab, capped at 200. -/
lemma networkBufAt_applyEvents (evts : List DebuggerEvent) :
    ∀ st : BridgeState, networkBounded st → ∀ tab,
      networkBufAt (applyEvents st evts) tab =
        List.rtake (networkBufAt st tab ++ networkPushes evts tab) 200 := by
  induction evts with
  | nil =>
      intro st hb tab
      simp only [applyEvents, List.foldl_nil, networkPushes, List.filterMap_nil,
        List.append_nil]
      exact (rtake_of_length_le _ _ (hb tab)).symm
  | cons ev rest ih =>
      intro st hb tab
      have hstep : applyEvents st (ev :: rest) =
          applyEvents (onDebuggerEvent st ev) rest := rfl
      rw [hstep]
      cases ev with
      | consoleAPICalled t2 ctype argValues timestamp =>
          rw [ih _ (fun t => by rw [networkBufAt_consoleAPICalled]; exact hb t)]
          rw [networkBufAt_consoleAPICalled]
          simp [networkPushes, List.filterMap_cons]
      | exceptionThrown t2 text description timestamp =>
          rw [ih _ (fun t => by rw [networkBufAt_exceptionThrown]; exact hb t)]
          rw [networkBufAt_exceptionThrown]
          simp [networkPushes, List.filterMap_cons]
      | responseReceived t2 url status mimeType requestId =>
          have hb' : networkBounded
              (onDebuggerEvent st (.responseReceived t2 url status mimeType requestId)) := by
            intro t
            by_cases ht : t = t2
            · subst ht
              rw [networkBufAt_responseReceived_self]
              rw [length_rtake]
              omega
            · rw [networkBufAt_responseReceived_ne _ _ _ _ _ _ _ ht]
              exact hb t
          rw [ih _ hb']
          by_cases ht : t2 = tab
          · subst ht
            rw [networkBufAt_responseReceived_self]
            rw [rtake_append_rtake]
            simp [networkPushes, List.filterMap_cons, netEntry]
          · rw [networkBufAt_responseReceived_ne _ _ _ _ _ _ _ (Ne.symm ht)]
            simp [networkPushes, List.filterMap_cons, ht]

/-- For event sequences without exception notifications, the console
buffer after ingestion is the right-take of the old buffer extended by
all console entries pushed for the tab, capped at 500. -/
lemma consoleBufAt_applyEvents (evts : List DebuggerEvent) :
    ∀ st : BridgeState, consoleBounded st → noExceptionEvents evts = true → ∀ tab,
      consoleBufAt (applyEvents st evts) tab =
        List.rtake (consoleBufAt st tab ++ consolePushes evts tab) 500 := by
  induction evts with
  | nil =>
      intro st hb _ tab
      simp only [applyEvents, List.foldl_nil, consolePushes, List.filterMap_nil,
        List.append_nil]
      exact (rtake_of_length_le _ _ (hb tab)).symm
  | cons ev rest ih =>
      intro st hb hnx tab
      have hstep : applyEvents st (ev :: rest) =
          applyEvents (onDebuggerEvent st ev) rest := rfl
      rw [hstep]
      have hnx' : noExceptionEvents rest = true := by
        simp only [noExceptionEvents, List.all_cons, Bool.and_eq_true] at hnx
        exact hnx.2
      cases ev with
      | consoleAPICalled t2 ctype argValues timestamp =>
          have hb' : consoleBounded
              (onDebuggerEvent st (.consoleAPICalled t2 ctype argValues timestamp)) := by
            intro t
            by_cases ht : t = t2
            · subst ht
              rw [consoleBufAt_consoleAPICalled_self]
              rw [length_rtake]
              omega
            · rw [consoleBufAt_consoleAPICalled_ne _ _ _ _ _ _ ht]
              exact hb t
          rw [ih _ hb' hnx']
          by_cases ht : t2 = tab
          · subst ht
            rw [consoleBufAt_consoleAPICalled_self]
            rw [rtake_append_rtake]
            simp [consolePushes, List.filterMap_cons, conEntry]
          · rw [consoleBufAt_consoleAPICalled_ne _ _ _ _ _ _ (Ne.symm ht)]
            simp [consolePushes, List.filterMap_cons, ht]
      | exceptionThrown t2 text description timestamp =>
          exact absurd hnx (by simp [noExceptionEvents])
      | responseReceived t2 url status mimeType requestId =>
          rw [ih _ (fun t => by rw [consoleBufAt_responseReceived]; exact hb t) hnx']
          rw [consoleBufAt_responseReceived]
          simp [consolePushes, List.filterMap_cons]

lemma networkBounded_initial : networkBounded initialBridgeState := by
  intro t
  simp [networkBufAt, initialBridgeState, mapGet]

lemma consoleBounded_initial : consoleBounded initialBridgeState := by
  intro t
  simp [consoleBufAt, initialBridgeState, mapGet]

/-- Ingesting `n` exception notifications appends `n` console entries
with no eviction at all. -/
lemma consoleBufAt_replicate_exn (n : Nat) :
    ∀ (st : BridgeState) (tab : Nat),
      consoleBufAt (applyEvents st
          (List.replicate n (.exceptionThrown tab "E" "" 0))) tab =
        consoleBufAt st tab ++ List.replicate n (exnEntry "E" "" 0) := by
  induction n with
  | zero =>
      intro st tab
      simp [applyEvents]
  | succ k ih =>
      intro st tab
      rw [List.replicate_succ]
      rw [show applyEvents st (DebuggerEvent.exceptionThrown tab "E" "" 0 ::
            List.replicate k (DebuggerEvent.exceptionThrown tab "E" "" 0)) =
          applyEvents (onDebuggerEvent st (.exceptionThrown tab "E" "" 0))
            (List.replicate k (.exceptionThrown tab "E" "" 0)) from rfl]
      rw [ih, consoleBufAt_exceptionThrown_self, List.append_assoc]
      rfl

/-- The console entries pushed by a homogeneous run of same-tab
console-API events. -/
lemma consolePushes_map_console (tab : Nat) (ctype : String)
    (args : List String) (l : List Nat) :
    consolePushes (l.map fun i => .consoleAPICalled tab ctype args i) tab =
      l.map fun i => conEntry ctype args i := by
  induction l with
  | nil => rfl
  | cons a t ih =>
      simp only [List.map_cons, consolePushes, List.filterMap_cons] at ih ⊢
      simp [ih, conEntry]

/-! ## Claim C1 -/

/-- Claim C1 counterexample: the console buffer is not bounded by 500.
Ingesting 501 `Runtime.exceptionThrown` notifications for tab 1 — a
legal sequence of console, exception and network-response events —
leaves the tab-1 console buffer with 501 entries, because the
`exceptionThrown` branch of the `chrome.debugger.onEvent` listener
pushes without the truncation the `consoleAPICalled` branch performs. -/
theorem c1_console_bound_counterexample :
    500 < (consoleBufAt (applyEvents initialBridgeState
        (List.replicate 501 (.exceptionThrown 1 "E" "" 0))) 1).length := by
  rw [consoleBufAt_replicate_exn]
  have h1 : consoleBufAt initialBridgeState 1 = [] := rfl
  rw [h1, List.nil_append, List.length_replicate]
  omega

/-- Claim C1 (amended): for every tab and every ingested event
sequence, the network buffer always holds exactly the most recent (at
most 200) pushed entries — oldest evicted first — and so never exceeds
its bound; the console buffer holds exactly the most recent (at most
500) pushed entries provided the sequence contains no
`Runtime.exceptionThrown` notification.  Exception notifications are
appended with no eviction, so the console bound can be exceeded while
they arrive (see the counterexample). -/
theorem c1_buffers_bounded_fifo :
    ∀ (evts : List DebuggerEvent) (tab : Nat),
      networkBufAt (applyEvents initialBridgeState evts) tab =
        List.rtake (networkPushes evts tab) 200 ∧
      (networkBufAt (applyEvents initialBridgeState evts) tab).length ≤ 200 ∧
      (noExceptionEvents evts = true →
        consoleBufAt (applyEvents initialBridgeState evts) tab =
          List.rtake (consolePushes evts tab) 500 ∧
        (consoleBufAt (applyEvents initialBridgeState evts) tab).length ≤ 500) := by
  intro evts tab
  have hnet := networkBufAt_applyEvents evts initialBridgeState
    networkBounded_initial tab
  have hinit : networkBufAt initialBridgeState tab = [] := rfl
  rw [hinit, List.nil_append] at hnet
  refine ⟨hnet, ?_, ?_⟩
  · rw [hnet, length_rtake]; omega
  · intro hnx
    have hcon := consoleBufAt_applyEvents evts initialBridgeState
      consoleBounded_initial hnx tab
    have hcinit : consoleBufAt initialBridgeState tab = [] := rfl
    rw [hcinit, List.nil_append] at hcon
    exact ⟨hcon, by rw [hcon, length_rtake]; omega⟩

/-- Witness for C1: the amended theorem applied to a concrete
exception-free event sequence. -/
theorem c1_buffers_bounded_fifo_witness :
    consoleBufAt (applyEvents initialBridgeState witnessEvents) 1 =
      List.rtake (consolePushes witnessEvents 1) 500 :=
  ((c1_buffers_bounded_fifo witnessEvents 1).2.2 (by decide)).1

/-! ## Claim C7 -/

/-- Claim C7 counterexample: clearing is not scoped to the returned
window.  On a 200-entry tab-7 console buffer, `readConsole` with
`limit` 100 and `clear` true returns only the most recent 100 entries,
yet afterwards the buffer is completely empty: the 100 oldest retained
entries were discarded even though they were never returned. -/
theorem c7_clear_scope_counterexample :
    (consoleBufAt fullConsoleState 7).length = 200 ∧
    (readConsole fullConsoleState 7 true 100).1.count = 100 ∧
    consoleBufAt (readConsole fullConsoleState 7 true 100).2 7 = [] := by
  have hbuf : consoleBufAt fullConsoleState 7 = fullConsoleBuf := rfl
  have hlen : fullConsoleBuf.length = 200 := by
    unfold fullConsoleBuf
    rw [List.length_map, List.length_range]
  refine ⟨?_, ?_, ?_⟩
  · rw [hbuf, hlen]
  · rw [readConsole_count_eq, hbuf]
    simp only [jsSliceLast]
    rw [if_neg (by decide), List.length_drop, hlen]
  · rw [readConsole_state_clear]
    simp [consoleBufAt, mapGet_mapSet_self]

/-- Claim C7 (amended): `readConsole` / `readNetwork` with a positive
`limit` return the most recent `limit` buffered entries (`limit`
defaults to 100 / 50 at the callers) and report their number; with
`clear` false the whole state is untouched; with `clear` true the
tab's entire buffer is reset to empty — discarding also retained
entries that were not returned.  In the 600-console-event scenario the
tab-7 buffer retains 500 entries, and a `limit` 100, `clear` false
read returns the most recent 100 of them leaving the state
unchanged. -/
theorem c7_read_and_clear :
    ∀ (st : BridgeState) (tab : Nat) (limit : Nat), 1 ≤ limit →
      ((readConsole st tab false limit).1.messages =
          List.rtake (consoleBufAt st tab) limit ∧
        (readConsole st tab false limit).1.count =
          min limit (consoleBufAt st tab).length ∧
        (readConsole st tab false limit).2 = st ∧
        consoleBufAt (readConsole st tab true limit).2 tab = []) ∧
      ((readNetwork st tab false limit).1.requests =
          List.rtake (networkBufAt st tab) limit ∧
        (readNetwork st tab false limit).1.count =
          min limit (networkBufAt st tab).length ∧
        (readNetwork st tab false limit).2 = st ∧
        networkBufAt (readNetwork st tab true limit).2 tab = []) ∧
      ((consoleBufAt scenario600 7).length = 500 ∧
        (readConsole scenario600 7 false 100).1.messages =
          List.rtake (consoleBufAt scenario600 7) 100 ∧
        (readConsole scenario600 7 false 100).1.count = 100 ∧
        (readConsole scenario600 7 false 100).2 = scenario600) := by
  intro st tab limit hlim
  have hslice : ∀ {α : Type} (l : List α), jsSliceLast l limit = List.rtake l limit := by
    intro α l
    simp only [jsSliceLast, List.rtake]
    rw [if_neg (by omega)]
  have hslice100 : ∀ {α : Type} (l : List α), jsSliceLast l 100 = List.rtake l 100 := by
    intro α l
    simp only [jsSliceLast, List.rtake]
    rw [if_neg (by decide)]
  have hlen600 : (consoleBufAt scenario600 7).length = 500 := by
    have h := consoleBufAt_applyEvents
      ((List.range 600).map fun i => .consoleAPICalled 7 "log" [] i)
      initialBridgeState consoleBounded_initial
      (by simp [noExceptionEvents, List.all_map]) 7
    have hcinit : consoleBufAt initialBridgeState 7 = [] := rfl
    rw [hcinit, List.nil_append] at h
    have hpush : (consolePushes
        ((List.range 600).map fun i => .consoleAPICalled 7 "log" [] i) 7).length
        = 600 := by
      rw [consolePushes_map_console, List.length_map, List.length_range]
    unfold scenario600
    rw [h, length_rtake, hpush]
    omega
  refine ⟨⟨?_, ?_, ?_, ?_⟩, ⟨?_, ?_, ?_, ?_⟩, hlen600, ?_, ?_, ?_⟩
  · rw [readConsole_messages_eq, hslice]
  · rw [readConsole_count_eq, hslice, length_rtake]
  · rw [readConsole_state_noclear]
  · rw [readConsole_state_clear]
    simp [consoleBufAt, mapGet_mapSet_self]
  · rw [readNetwork_requests_eq, hslice]
  · rw [readNetwork_count_eq, hslice, length_rtake]
  · rw [readNetwork_state_noclear]
  · rw [readNetwork_state_clear]
    simp [networkBufAt, mapGet_mapSet_self]
  · rw [readConsole_messages_eq, hslice100]
  · rw [readConsole_count_eq, hslice100, length_rtake, hlen600]
    omega
  · rw [readConsole_state_noclear]

/-- Witness for C7: the amended theorem applied at `limit` 100 on the
200-entry state. -/
theorem c7_read_and_clear_witness :
    (readConsole fullConsoleState 7 false 100).1.messages =
      List.rtake (consoleBufAt fullConsoleState 7) 100 :=
  ((c7_read_and_clear fullConsoleState 7 100 (by decide)).1).1

/-! ## Claim C10 -/

/-- Claim C10: for a tab with no `DebuggingSession` — not in
`attachedTabs` and with no buffer entries in either map, exactly the
state `detachDebugger` leaves behind and the state before any attach —
`readConsole` and `readNetwork` succeed with an empty entry list and
count 0, and the buffer contents observable for every tab are
unchanged (as is the attached-tab set). -/
theorem c10_read_without_session :
    ∀ (st : BridgeState) (tabId : Nat) (clear : Bool) (limit : Nat),
      tabId ∉ st.attachedTabs →
      mapGet st.consoleMessages tabId = none →
      mapGet st.networkRequests tabId = none →
      (readConsole st tabId clear limit).1 = { messages := [], count := 0 } ∧
      (readNetwork st tabId clear limit).1 = { requests := [], count := 0 } ∧
      (∀ t, consoleBufAt (readConsole st tabId clear limit).2 t = consoleBufAt st t) ∧
      (∀ t, networkBufAt (readConsole st tabId clear limit).2 t = networkBufAt st t) ∧
      (∀ t, consoleBufAt (readNetwork st tabId clear limit).2 t = consoleBufAt st t) ∧
      (∀ t, networkBufAt (readNetwork st tabId clear limit).2 t = networkBufAt st t) ∧
      (readConsole st tabId clear limit).2.attachedTabs = st.attachedTabs ∧
      (readNetwork st tabId clear limit).2.attachedTabs = st.attachedTabs := by
  intro st tabId clear limit _ hcon hnet
  have hcbuf : consoleBufAt st tabId = [] := by simp [consoleBufAt, hcon]
  have hnbuf : networkBufAt st tabId = [] := by simp [networkBufAt, hnet]
  have hslice : ∀ {α : Type} (n : Nat), jsSliceLast ([] : List α) n = [] := by
    intro α n
    simp [jsSliceLast]
  refine ⟨?_, ?_, ?_, ?_, ?_, ?_, ?_, ?_⟩
  · simp [readConsole, hcbuf, hslice]
  · simp [readNetwork, hnbuf, hslice]
  · intro t
    by_cases ht : t = tabId
    · subst ht
      cases clear <;> simp [readConsole, consoleBufAt, mapGet_mapSet_self, hcon]
    · cases clear <;>
        simp [readConsole, consoleBufAt, mapGet_mapSet_ne _ _ _ _ ht]
  · intro t
    cases clear <;> simp [readConsole, networkBufAt]
  · intro t
    cases clear <;> simp [readNetwork, consoleBufAt]
  · intro t
    by_cases ht : t = tabId
    · subst ht
      cases clear <;> simp [readNetwork, networkBufAt, mapGet_mapSet_self, hnet]
    · cases clear <;>
        simp [readNetwork, networkBufAt, mapGet_mapSet_ne _ _ _ _ ht]
  · cases clear <;> simp [readConsole]
  · cases clear <;> simp [readNetwork]

/-- Witness for C10: reading console and network on the untouched
initial state, tab 3, with `clear` set. -/
theorem c10_read_without_session_witness :
    (readConsole initialBridgeState 3 true 100).1 =
      { messages := [], count := 0 } ∧
    (readNetwork initialBridgeState 3 true 50).1 =
      { requests := [], count := 0 } :=
  ⟨(c10_read_without_session initialBridgeState 3 true 100 (by decide) rfl rfl).1,
   (c10_read_without_session initialBridgeState 3 true 50 (by decide) rfl rfl).2.1⟩

/-! ## Claim C8 -/

/-- Claim C8: attach and detach are idempotent per tab.  Attaching a
tab already in `attachedTabs` is a no-op returning success, whatever
the browser would report; a native attach rejection whose message
includes `Already attached` is treated as success and the tab is
recorded locally; detaching a tab that is not attached is a no-op. -/
theorem c8_attach_detach_idempotent :
    ∀ (env : AttachEnv) (st : BridgeState) (tabId : Nat),
      (tabId ∈ st.attachedTabs →
        ensureDebuggerAttached env st tabId = (.ok (), st)) ∧
      (tabId ∉ st.attachedTabs →
        ∀ m, env.attach = .error m → jsIncludes m "Already attached" = true →
          ensureDebuggerAttached env st tabId =
            (.ok (), { st with attachedTabs := setAdd st.attachedTabs tabId }) ∧
          tabId ∈ (ensureDebuggerAttached env st tabId).2.attachedTabs) ∧
      (tabId ∉ st.attachedTabs → detachDebugger st tabId = st) := by
  intro env st tabId
  refine ⟨?_, ?_, ?_⟩
  · intro hmem
    simp [ensureDebuggerAttached, hmem]
  · intro hmem m hatt hinc
    have heq : ensureDebuggerAttached env st tabId =
        (.ok (), { st with attachedTabs := setAdd st.attachedTabs tabId }) := by
      simp [ensureDebuggerAttached, hmem, hatt, hinc]
    refine ⟨heq, ?_⟩
    rw [heq]
    simp only [setAdd]
    split
    · assumption
    · simp
  · intro hmem
    simp [detachDebugger, hmem]

/-- Witness for C8: a fresh state, tab 5, with the browser reporting
the target as already attached. -/
theorem c8_attach_detach_idempotent_witness :
    ensureDebuggerAttached alreadyAttachedEnv initialBridgeState 5 =
      (.ok (), { initialBridgeState with attachedTabs := setAdd [] 5 }) ∧
    detachDebugger initialBridgeState 5 = initialBridgeState :=
  ⟨((c8_attach_detach_idempotent alreadyAttachedEnv initialBridgeState 5).2.1
      (by decide) _ rfl (by decide)).1,
   (c8_attach_detach_idempotent alreadyAttachedEnv initialBridgeState 5).2.2
      (by decide)⟩

/-! ## Claim C2 -/

/-- Claim C2 counterexample: the executor does not stop after one
re-attach-and-retry cycle.  With a browser on which the first two
evaluate calls reject `not attached` (each re-attach succeeding) and
the third resolves, `cdpEvaluate` silently runs three evaluate
attempts — two full re-attach-and-retry cycles — instead of giving up
after one; and when every attempt rejects `not attached` with a
successful re-attach, the recursion is still running after five
attempts (`none`: no result and no give-up), so the number of
attach/evaluate calls is not bounded. -/
theorem c2_retry_counterexample :
    cdpEvaluate (.ok ())
        [notAttachedAttempt, notAttachedAttempt, valueAttempt "42"] =
      some (.ok (.valueResult (some "42"))) ∧
    cdpEvaluate (.ok ()) (List.replicate 5 notAttachedAttempt) = none := by
  constructor
  · rfl
  · rfl

/-- Claim C2 (amended): a protocol-level `not attached` failure makes
`cdpEvaluate` delete the local attached marker, re-attach and retry,
with no retry counter: the recursion is still unresolved after `n`
attempts exactly when each of those attempts rejected `not attached`
and its re-attach succeeded.  The executor gives up only when an
attempt resolves, rejects with a different error, or its re-attach
fails — so termination is not guaranteed when the error recurs after
successful re-attachment. -/
theorem c2_retry_unbounded :
    ∀ attempts : List EvalAttempt,
      (cdpEvaluate (.ok ()) attempts = none ↔
        attempts.all isSilentRetry = true) := by
  intro attempts
  show cdpEvaluateLoop attempts = none ↔ _
  induction attempts with
  | nil => simp [cdpEvaluateLoop]
  | cons a rest ih =>
      simp only [List.all_cons, Bool.and_eq_true]
      cases hsend : a.send with
      | ok r =>
          by_cases hex : r.hasException <;>
            simp [cdpEvaluateLoop, hsend, hex, isSilentRetry]
      | error m =>
          by_cases hna : jsIncludes m "not attached" = true
          · cases hre : a.reattach with
            | ok u => simp [cdpEvaluateLoop, hsend, hna, hre, isSilentRetry, ih]
            | error am => simp [cdpEvaluateLoop, hsend, hna, hre, isSilentRetry]
          · have hna' : jsIncludes m "not attached" = false := by
              revert hna
              cases jsIncludes m "not attached" <;> simp
            simp [cdpEvaluateLoop, hsend, hna', isSilentRetry]

/-! ## Claim C9 -/

/-- Claim C9 counterexample: on a page where no selector resolves,
the native-protocol `cdpType` still reports success (it discards the
focus evaluation whose page script threw `Element not found` and
inserts the text anyway), and `cdpScroll` with a selector reports
success while ignoring the `!!el` result — neither yields an
element-not-found error. -/
theorem c9_native_type_scroll_counterexample :
    (cdpType emptyPage (some "#missing") "hello" true false).1 =
      .ok { success := true, typed := "hello" } ∧
    cdpScroll emptyPage (some "#missing") 0 300 = .ok (.scrolledTo "#missing") ∧
    emptyPage.elementExists "#missing" = false := by
  exact ⟨rfl, rfl, rfl⟩

/-- Claim C9 (amended): when no element matches the selector, the
DOM-fallback `click`, `type`, `scroll` and `upload` handlers and the
native `cdpClick` and `cdpUploadFile` yield a descriptive
element-not-found error result (none of them retries — each is a
single straight-line computation); but the native `cdpType` inserts
the text and reports success, and the native `cdpScroll` reports
success, without surfacing the missing element. -/
theorem c9_element_not_found :
    ∀ (dom : Dom) (page : CdpPage) (cdom : CdpDom) (sel text fname : String)
      (clear pressEnter append : Bool) (bytes : List Nat) (files : List String)
      (dx dy : Int),
      (dom.find sel = none →
        clickElement dom sel none none = .error ("Element not found: " ++ sel) ∧
        typeText dom sel text clear pressEnter append =
          .error ("Element not found: " ++ sel) ∧
        scrollPage dom (some sel) dx dy = .error ("Element not found: " ++ sel) ∧
        uploadFile dom (some sel) bytes fname =
          .error ("File input not found: " ++ sel)) ∧
      (page.locateCenter sel = none →
        cdpClick page (some sel) none none =
          .error ("Element not found: " ++ sel)) ∧
      (cdom.queryNodeId sel = 0 →
        cdpUploadFile cdom (some sel) files =
          .error ("File input not found: " ++ sel)) ∧
      (page.elementExists sel = false →
        (cdpType page (some sel) text clear pressEnter).1 =
          .ok { success := true, typed := text } ∧
        cdpScroll page (some sel) dx dy = .ok (.scrolledTo sel)) := by
  intro dom page cdom sel text fname clear pressEnter append bytes files dx dy
  refine ⟨?_, ?_, ?_, ?_⟩
  · intro hfind
    refine ⟨?_, ?_, ?_, ?_⟩
    · simp [clickElement, hfind]
    · simp [typeText, hfind]
    · simp [scrollPage, hfind]
    · simp [uploadFile, hfind]
  · intro hloc
    simp [cdpClick, hloc]
  · intro hnode
    simp [cdpUploadFile, hnode]
  · intro _
    exact ⟨rfl, rfl⟩

/-- Witness for C9: concrete DOMs on which nothing matches. -/
theorem c9_element_not_found_witness :
    clickElement emptyDom "#a" none none =
      .error ("Element not found: " ++ "#a") ∧
    cdpUploadFile emptyCdpDom (some "#a") ["f.txt"] =
      .error ("File input not found: " ++ "#a") :=
  ⟨((c9_element_not_found emptyDom emptyPage emptyCdpDom "#a" "t" "f"
      true false false [] [] 0 0).1 rfl).1,
   (c9_element_not_found emptyDom emptyPage emptyCdpDom "#a" "t" "f"
      true false false [] ["f.txt"] 0 0).2.2.1 rfl⟩

/-! ## Claim C3 -/

/-- Claim C3 counterexample: a delegation exception is not answered
with the command's `requestId`.  For a command frame with id 1, a
rejected `chrome.runtime.sendMessage` makes the `catch` send
`id: null, error` — the error-bearing response does not carry the
received `requestId` (and, having a null id, can never be matched to
the pending request at the relay). -/
theorem c3_null_id_counterexample :
    offscreenOnMessage (.ok offFrame1) (fun _ => .rejected "boom") =
      { id := none, result := none, error := some "boom" } ∧
    offFrame1.id = some 1 := by
  exact ⟨rfl, rfl⟩

/-- Claim C3 (amended): the endpoint sends exactly one response frame
per received frame (`offscreenOnMessage` yields one frame on every
path): on successful delegation the frame carries the same `requestId`
as the command and the delegated result (executor failures included,
since the service worker converts them into resolved results); a
delegation exception or a parse failure is converted into an
error-bearing frame whose id is null — not the command's id. -/
theorem c3_single_response :
    ∀ (input : Except String OffFrame) (delegate : OffFrame → Delegation),
      (∀ data res, input = .ok data → delegate data = .resolved res →
        offscreenOnMessage input delegate =
          { id := data.id, result := some res, error := none }) ∧
      (∀ data m, input = .ok data → delegate data = .rejected m →
        offscreenOnMessage input delegate =
          { id := none, result := none, error := some m }) ∧
      (∀ m, input = .error m →
        offscreenOnMessage input delegate =
          { id := none, result := none, error := some m }) := by
  intro input delegate
  refine ⟨?_, ?_, ?_⟩
  · intro data res hin hdel
    subst hin
    simp [offscreenOnMessage, hdel]
  · intro data m hin hdel
    subst hin
    simp [offscreenOnMessage, hdel]
  · intro m hin
    subst hin
    simp [offscreenOnMessage]

/-- Witness for C3: a resolved delegation for the id-1 frame. -/
theorem c3_single_response_witness :
    offscreenOnMessage (.ok offFrame1) (fun _ => .resolved 5) =
      { id := offFrame1.id, result := some 5, error := none } :=
  (c3_single_response (.ok offFrame1) (fun _ => .resolved 5)).1 offFrame1 5
    rfl rfl

/-! ## Claim C4 -/

/-- Claim C4: a pending request is resolved exactly once, by whichever
of its matching response and its 30 000 ms timer comes first.  In the
response-first interleaving the originating controller receives
exactly the response frame, the entry leaves the pending map, and the
later timer firing does nothing; in the timer-first interleaving the
controller receives exactly one timeout error, the entry leaves the
map, and the late response does nothing. -/
theorem c4_pending_resolved_exactly_once :
    ∀ (st : ServerState) (i : Nat) (e : PendingEntry) (r : Nat) (conn conn' : Nat),
      i ≠ 0 → mapGet st.pendingRequests i = some e →
      (onSocketMessage st conn (responseMsg i r)).2.1 =
          [(e.conn, responseMsg i r)] ∧
      (onSocketMessage st conn (responseMsg i r)).2.2 = [] ∧
      mapGet (onSocketMessage st conn (responseMsg i r)).1.pendingRequests i =
        none ∧
      relayTimerFire (onSocketMessage st conn (responseMsg i r)).1 i =
        ((onSocketMessage st conn (responseMsg i r)).1, [], []) ∧
      (relayTimerFire st i).2.1 = [(e.conn, timeoutFrame e.clientId)] ∧
      (relayTimerFire st i).2.2 = [] ∧
      mapGet (relayTimerFire st i).1.pendingRequests i = none ∧
      onSocketMessage (relayTimerFire st i).1 conn' (responseMsg i r) =
        ((relayTimerFire st i).1, [], []) := by
  intro st i e r conn conn' hi he
  have hresp : onSocketMessage st conn (responseMsg i r) =
      ({ st with pendingRequests := mapDelete st.pendingRequests i },
       [(e.conn, responseMsg i r)], []) := by
    simp [onSocketMessage, responseMsg, hi, he]
  have htimer : relayTimerFire st i =
      ({ st with pendingRequests := mapDelete st.pendingRequests i },
       [(e.conn, timeoutFrame e.clientId)], []) := by
    simp [relayTimerFire, he]
  refine ⟨?_, ?_, ?_, ?_, ?_, ?_, ?_, ?_⟩
  · rw [hresp]
  · rw [hresp]
  · rw [hresp]
    exact mapGet_mapDelete_self _ _
  · rw [hresp]
    simp [relayTimerFire, mapGet_mapDelete_self]
  · rw [htimer]
  · rw [htimer]
  · rw [htimer]
    exact mapGet_mapDelete_self _ _
  · rw [htimer]
    simp [onSocketMessage, responseMsg, hi, mapGet_mapDelete_self,
      commandBranch, msgCommandTruthy]

/-- Witness for C4: the one-pending relay state, response first. -/
theorem c4_pending_resolved_exactly_once_witness :
    (onSocketMessage relayStateOnePending 9 (responseMsg 1 7)).2.1 =
      [((2 : Nat), responseMsg 1 7)] :=
  (c4_pending_resolved_exactly_once relayStateOnePending 1
    { conn := 2, clientId := none } 7 9 9 (by decide) rfl).1

/-! ## Claim C5 -/

/-- Claim C5: responses are routed strictly by identifier.  For any
set of pending requests and any arrival order of response frames with
distinct pending ids, each response frame is written to exactly the
controller connection stored for its id — never to a controller
determined by arrival position. -/
theorem c5_responses_routed_by_id :
    ∀ (rs : List (Nat × Nat)) (st : ServerState) (conn : Nat),
      (∀ p ∈ rs, p.1 ≠ 0 ∧ (mapGet st.pendingRequests p.1).isSome) →
      (rs.map Prod.fst).Nodup →
      (runMessages st conn (rs.map fun p => responseMsg p.1 p.2)).2 =
        rs.map fun p => (pendingConnOf st p.1, responseMsg p.1 p.2) := by
  intro rs
  induction rs with
  | nil =>
      intro st conn _ _
      rfl
  | cons hd tl ih =>
      intro st conn hall hnd
      obtain ⟨hne, hsome⟩ := hall hd (List.mem_cons_self _ _)
      obtain ⟨e, he⟩ := Option.isSome_iff_exists.mp hsome
      have hnd2 : (hd.1 :: tl.map Prod.fst).Nodup := by
        rw [List.map_cons] at hnd
        exact hnd
      have hnd' := List.nodup_cons.mp hnd2
      have hpne : ∀ p ∈ tl, p.1 ≠ hd.1 := by
        intro p hp hcontra
        exact hnd'.1 (hcontra ▸ List.mem_map_of_mem Prod.fst hp)
      have hstep : onSocketMessage st conn (responseMsg hd.1 hd.2) =
          ({ st with pendingRequests := mapDelete st.pendingRequests hd.1 },
           [(e.conn, responseMsg hd.1 hd.2)], []) := by
        simp [onSocketMessage, responseMsg, hne, he]
      have hall' : ∀ p ∈ tl, p.1 ≠ 0 ∧
          (mapGet (mapDelete st.pendingRequests hd.1) p.1).isSome := by
        intro p hp
        obtain ⟨h1, h2⟩ := hall p (List.mem_cons_of_mem _ hp)
        exact ⟨h1, by rw [mapGet_mapDelete_ne _ _ _ (hpne p hp)]; exact h2⟩
      have hconn : ∀ p ∈ tl,
          pendingConnOf { st with
            pendingRequests := mapDelete st.pendingRequests hd.1 } p.1 =
            pendingConnOf st p.1 := by
        intro p hp
        simp [pendingConnOf, mapGet_mapDelete_ne _ _ _ (hpne p hp)]
      have hrun : runMessages st conn
          (responseMsg hd.1 hd.2 :: tl.map fun p => responseMsg p.1 p.2) =
          ((runMessages { st with
              pendingRequests := mapDelete st.pendingRequests hd.1 } conn
              (tl.map fun p => responseMsg p.1 p.2)).1,
           (e.conn, responseMsg hd.1 hd.2) ::
             (runMessages { st with
               pendingRequests := mapDelete st.pendingRequests hd.1 } conn
               (tl.map fun p => responseMsg p.1 p.2)).2) := by
        simp [runMessages, hstep]
      rw [List.map_cons, hrun]
      simp only
      rw [ih _ conn hall' hnd'.2, List.map_cons]
      congr 1
      · simp [pendingConnOf, he]
      · exact List.map_congr_left fun p hp => by rw [hconn p hp]

/-- Witness for C5: three pending requests answered in reversed,
permuted order; each frame reaches its own controller. -/
theorem c5_responses_routed_by_id_witness :
    (runMessages relayStateThreePending 9
        ([((3 : Nat), (30 : Nat)), (1, 10), (2, 20)].map
          fun p => responseMsg p.1 p.2)).2 =
      [((3 : Nat), (30 : Nat)), (1, 10), (2, 20)].map
        fun p => (pendingConnOf relayStateThreePending p.1,
          responseMsg p.1 p.2) :=
  c5_responses_routed_by_id [(3, 30), (1, 10), (2, 20)]
    relayStateThreePending 9 (by decide) (by decide)

/-! ## Claim C6 -/

/-- Claim C6: a controller command arriving while no in-browser
endpoint is registered is answered immediately with the
not-connected error: the relay state is completely unchanged (no
`PendingRequest` is created, the `requestId` counter does not move,
nothing is queued), no frame goes anywhere but back to the
controller, and no timer is armed. -/
theorem c6_no_endpoint_immediate_error :
    ∀ (st : ServerState) (conn : Nat) (msg : ServerMsg),
      st.chromeExtension = none →
      msg.mtype ≠ some "connected" →
      (∀ i, msg.id = some i → i ≠ 0 → mapGet st.pendingRequests i = none) →
      msgCommandTruthy msg.command = true →
      onSocketMessage st conn msg = (st, [(conn, notConnectedFrame msg.id)], []) := by
  intro st conn msg hext hmt hid hcmd
  obtain ⟨mt, mid, mcmd, mres, merr⟩ := msg
  simp only at hmt hid hcmd
  cases mid with
  | none =>
      simp [onSocketMessage, commandBranch, handleCommand, hmt, hcmd, hext]
  | some i =>
      by_cases hi : i = 0
      · subst hi
        simp [onSocketMessage, commandBranch, handleCommand, hmt, hcmd, hext]
      · have hpend := hid i rfl hi
        simp [onSocketMessage, commandBranch, handleCommand, hmt, hcmd, hext,
          hi, hpend]

/-- Witness for C6: a `navigate` command on the endpoint-less relay. -/
theorem c6_no_endpoint_immediate_error_witness :
    onSocketMessage relayStateNoExtension 4 navigateMsg =
      (relayStateNoExtension, [(4, notConnectedFrame navigateMsg.id)], []) :=
  c6_no_endpoint_immediate_error relayStateNoExtension 4 navigateMsg rfl
    (by decide) (by intro i hi hne; simp [navigateMsg] at hi) (by decide)

end ChromeBridge
